import Mathlib

/-!
Shallow embedding of the real-time intrusion-detection core:
the alert pipeline (anomaly_detection/inference/alert_manager.py) and the
detector core with its synthetic capture fallback
(anomaly_detection/inference/realtime_detector.py).

Time is modelled as a rational number of seconds; Python floats are
modelled as rationals; Python dicts holding optional keys are modelled as
structures with Option fields; the dict used as a cooldown map is modelled
as an association list whose update prepends (lookup returns the newest
binding, matching dict assignment followed by dict lookup).
-/

namespace Intrusion

/-! ## Data model -/

/-- One normalized network observation: the packet_data dict assembled by
the capture layer. Every key the detector reads is optional, since raw
packets may lack any of them. The code probes several aliases per field
(src_ip or source_ip, and so on); the model keeps one canonical field per
datum, standing for whichever alias is present. -/
structure Observation where
  src_ip : Option String := none
  dst_ip : Option String := none
  src_port : Option Nat := none
  dst_port : Option Nat := none
  protocol : Option String := none
  packet_length : Option Nat := none
  deriving Repr, DecidableEq

/-- The result dict built by process_packet. On the success path it carries
packet_data and no error; on the exception path it carries an error and no
packet_data (the except branch builds a dict without that key). -/
structure DetectionResult where
  timestamp : ℚ
  is_anomaly : Bool
  anomaly_score : ℚ
  packet_data : Option Observation := none
  error : Option String := none
  deriving Repr, DecidableEq

/-- The record handed to the database by log_detection (the raw_packet
textual snapshot, a truncated str of the dict, is not modelled; no claim
depends on it). -/
structure LogRecord where
  timestamp : ℚ
  source_ip : Option String
  dest_ip : Option String
  source_port : Option Nat
  dest_port : Option Nat
  protocol : Option String
  anomaly_score : ℚ
  is_anomaly : Bool
  severity : Option String
  deriving Repr, DecidableEq

/-- The alert_data dict passed into create_alert by the detector. -/
structure AlertData where
  timestamp : Option ℚ := none
  severity : Option String := none
  anomaly_score : Option ℚ := none
  threat_score : Option ℚ := none
  description : Option String := none
  packet_data : Option Observation := none
  deriving Repr, DecidableEq

/-- An alert object as built by create_alert. -/
structure Alert where
  id : String
  timestamp : ℚ
  severity : String
  anomaly_score : ℚ
  description : String
  packet_data : Option Observation
  status : String
  deriving Repr, DecidableEq

/-- Append to a collections.deque with a maximum length: the new element is
appended on the right and, when the capacity is exceeded, the oldest
elements are dropped from the left. -/
def dequeAppend (cap : Nat) (l : List α) (a : α) : List α :=
  let grown := l ++ [a]
  if cap < grown.length then grown.drop (grown.length - cap) else grown

/-! ## Alert manager (alert_manager.py) -/

/-- Mutable state of AlertManager. The stats dict is flattened into four
counters (its four keys). last_alert_time is the cooldown dict keyed by the
alert description. -/
structure AlertManager where
  enabled : Bool
  alert_cooldown : ℚ
  notification_methods : List String
  alerts : List Alert
  alert_history : List Alert
  last_alert_time : List (String × ℚ)
  total_alerts : Nat
  high_severity : Nat
  medium_severity : Nat
  low_severity : Nat
  deriving Repr, DecidableEq

/-- AlertManager constructor: configuration knobs are taken as arguments
(config defaults: enabled true, cooldown 60 seconds, methods console and
log); all storage starts empty and all counters at zero. -/
def AlertManager.init (enabled : Bool) (alert_cooldown : ℚ)
    (notification_methods : List String) : AlertManager :=
  { enabled := enabled
    alert_cooldown := alert_cooldown
    notification_methods := notification_methods
    alerts := []
    alert_history := []
    last_alert_time := []
    total_alerts := 0
    high_severity := 0
    medium_severity := 0
    low_severity := 0 }

/-- The cooldown check: an alert type is cooling down when it has fired
before and less than alert_cooldown seconds have elapsed since. -/
def is_in_cooldown (am : AlertManager) (alert_type : String) (now : ℚ) : Bool :=
  match am.last_alert_time.lookup alert_type with
  | none => false
  | some t => decide (now - t < am.alert_cooldown)

/-- Alert id generation: the code renders the current wall-clock time at
microsecond resolution into the id string; the model renders the scaled
time, preserving that distinct times give distinct ids. -/
def generate_alert_id (now : ℚ) : String :=
  "ALERT-" ++ toString (Int.floor (now * 1000000))

/-- Outcome of one create_alert call: the returned alert (none when
suppressed or disabled), the successor state, and the list of notification
channels the alert was dispatched to. -/
structure CreateAlertResult where
  alert : Option Alert
  st : AlertManager
  dispatched : List String
  deriving Repr, DecidableEq

/-- create_alert: return None untouched when alerts are disabled; derive
the cooldown key from the description and return None untouched when that
key is cooling down; otherwise build the alert, append it to the bounded
recent deque (maxlen 1000) and the unbounded history, bump the total and
the matching severity counter (only the three known severities have stats
keys), record the cooldown timestamp, and dispatch to every configured
notification method. -/
def create_alert (am : AlertManager) (d : AlertData) (now : ℚ) : CreateAlertResult :=
  if am.enabled = false then ⟨none, am, []⟩
  else
    let alert_type := d.description.getD "unknown"
    if is_in_cooldown am alert_type now then ⟨none, am, []⟩
    else
      let alert : Alert :=
        { id := generate_alert_id now
          timestamp := d.timestamp.getD now
          severity := d.severity.getD "low"
          anomaly_score := d.anomaly_score.getD 0
          description := d.description.getD "Anomaly detected"
          packet_data := d.packet_data
          status := "active" }
      let am' : AlertManager :=
        { am with
          alerts := dequeAppend 1000 am.alerts alert
          alert_history := am.alert_history ++ [alert]
          total_alerts := am.total_alerts + 1
          high_severity := if alert.severity = "high" then am.high_severity + 1 else am.high_severity
          medium_severity := if alert.severity = "medium" then am.medium_severity + 1 else am.medium_severity
          low_severity := if alert.severity = "low" then am.low_severity + 1 else am.low_severity
          last_alert_time := (alert_type, now) :: am.last_alert_time }
      ⟨some alert, am', am.notification_methods⟩

/-! ## Detector core (realtime_detector.py) -/

/-- Python round with round-half-to-even tie breaking, to an integer. -/
def roundHalfEven (x : ℚ) : ℤ :=
  let f := ⌊x⌋
  let r := x - f
  if r < 1/2 then f
  else if 1/2 < r then f + 1
  else if f % 2 = 0 then f else f + 1

/-- Python round(x, nd): round half to even at the nd-th decimal. -/
def pyRound (x : ℚ) (nd : Nat) : ℚ :=
  (roundHalfEven (x * 10 ^ nd) : ℚ) / 10 ^ nd

/-- Fixed-point f-string formatting to nd decimals, rendered via the scaled
rounded integer: two values format equally exactly when their nd-decimal
roundings agree, which is the property the cooldown key depends on. -/
def fmtFixed (x : ℚ) (nd : Nat) : String :=
  toString (roundHalfEven (x * 10 ^ nd))

/-- The alert description built in handle_anomaly, the f-string rendering
the 4-decimal anomaly score and the 1-decimal threat score. -/
def mkDescription (anomaly_score threat_score : ℚ) : String :=
  "Anomaly detected with score " ++ fmtFixed anomaly_score 4
    ++ ", threat score " ++ fmtFixed threat_score 1

/-- The blended score of handle_anomaly:
anomaly score times 0.6 plus threat score over 100 times 0.4. -/
def combinedScore (anomaly_score threat_score : ℚ) : ℚ :=
  anomaly_score * (6/10) + threat_score / 100 * (4/10)

/-- Severity assignment of handle_anomaly: high when the combined score
reaches 0.9 or the threat score reaches 75, else medium when the combined
score reaches 0.7 or the threat score reaches 50, else low. -/
def severityOf (anomaly_score threat_score : ℚ) : String :=
  let combined_score := combinedScore anomaly_score threat_score
  if 9/10 ≤ combined_score ∨ 75 ≤ threat_score then "high"
  else if 7/10 ≤ combined_score ∨ 50 ≤ threat_score then "medium"
  else "low"

/-- Modelled from the spec: the severity rule as section 4.3 words it,
combined equals anomalyScore times 0.6 plus threatScore over 100 times
0.4; high when combined reaches 0.9 or threatScore reaches 75, medium
when combined reaches 0.7 or threatScore reaches 50, else low. Kept as a
separate definition so the rule the code implements can be compared with
it. -/
def severitySpecRule (anomalyScore threatScore : ℚ) : String :=
  let combined := anomalyScore * (6/10) + threatScore / 100 * (4/10)
  if 9/10 ≤ combined ∨ 75 ≤ threatScore then "high"
  else if 7/10 ≤ combined ∨ 50 ≤ threatScore then "medium"
  else "low"

/-- Rank of a severity string under the order low below medium below high;
unknown strings rank lowest. -/
def severityRank (s : String) : Nat :=
  if s = "high" then 2 else if s = "medium" then 1 else 0

/-- Mutable state of RealtimeDetector: configuration knobs, the stats dict
flattened into counters, the bounded recent-results buffer, and the
persistence sink modelled as the list of records written to the database
(db_enabled mirrors DatabaseManager.enabled). The alert manager is always
present: the constructor sets it to the argument or a fresh instance, so
the truthiness test before create_alert always passes. -/
structure Detector where
  threshold : ℚ
  buffer_size : Nat
  db_enabled : Bool
  am : AlertManager
  total_packets : Nat
  anomalies_detected : Nat
  alerts_generated : Nat
  buffer : List DetectionResult
  db_log : List LogRecord
  deriving Repr, DecidableEq

/-- RealtimeDetector constructor: counters at zero, buffer and database
log empty (config defaults: threshold 0.85, buffer_size 1000). -/
def Detector.init (threshold : ℚ) (buffer_size : Nat) (db_enabled : Bool)
    (am : AlertManager) : Detector :=
  { threshold := threshold
    buffer_size := buffer_size
    db_enabled := db_enabled
    am := am
    total_packets := 0
    anomalies_detected := 0
    alerts_generated := 0
    buffer := []
    db_log := [] }

/-- The record dict assembled inside log_detection from a result and its
packet data. -/
def recordOf (timestamp : ℚ) (is_anomaly : Bool) (anomaly_score : ℚ)
    (severity : Option String) (pkt : Option Observation) : LogRecord :=
  { timestamp := timestamp
    source_ip := pkt.bind (fun o => o.src_ip)
    dest_ip := pkt.bind (fun o => o.dst_ip)
    source_port := pkt.bind (fun o => o.src_port)
    dest_port := pkt.bind (fun o => o.dst_port)
    protocol := pkt.bind (fun o => o.protocol)
    anomaly_score := anomaly_score
    is_anomaly := is_anomaly
    severity := severity }

/-- log_detection: return unchanged when the database is disabled,
otherwise append the record to the sink. -/
def log_detection (d : Detector) (timestamp : ℚ) (is_anomaly : Bool)
    (anomaly_score : ℚ) (severity : Option String) (pkt : Option Observation) : Detector :=
  if d.db_enabled then
    { d with db_log := d.db_log ++ [recordOf timestamp is_anomaly anomaly_score severity pkt] }
  else d

/-- handle_anomaly on an anomalous result: compute severity from the
anomaly score and the enrichment threat score (the threat lookup is an
external collaborator, so its resulting threat score is an input here;
with no providers configured it is 0), build the alert_data dict, call
create_alert on the always-present alert manager, increment the
alerts_generated counter unconditionally right after that call, and
persist an anomaly record. -/
def handle_anomaly (d : Detector) (timestamp anomaly_score : ℚ)
    (pkt : Option Observation) (threat_score : ℚ) : Detector :=
  let severity := severityOf anomaly_score threat_score
  let alert_data : AlertData :=
    { timestamp := some timestamp
      severity := some severity
      anomaly_score := some anomaly_score
      threat_score := some threat_score
      description := some (mkDescription anomaly_score threat_score)
      packet_data := pkt }
  let res := create_alert d.am alert_data timestamp
  let d1 := { d with am := res.st, alerts_generated := d.alerts_generated + 1 }
  log_detection d1 timestamp true anomaly_score (some severity) pkt

/-- What the external model and preprocessor produce for one observation
inside the try block of process_packet: a probability from predict_proba,
a bare 0-or-1 label from predict, or an exception raised anywhere in the
mapping or prediction. -/
inductive ScoreOutcome where
  | proba (p : ℚ)
  | label (b : Bool)
  | fail (e : String)
  deriving Repr, DecidableEq

/-- The tail of the process_packet success path: build the result dict,
on an anomalous prediction bump the anomaly counter and run
handle_anomaly, append the result to the bounded buffer, and persist it
through log_detection. -/
def scoredResult (d : Detector) (pkt : Observation) (prediction : Bool)
    (anomaly_score threat_score now : ℚ) : DetectionResult × Detector :=
  let result : DetectionResult :=
    { timestamp := now
      is_anomaly := prediction
      anomaly_score := anomaly_score
      packet_data := some pkt
      error := none }
  let d1 :=
    if prediction then
      handle_anomaly { d with anomalies_detected := d.anomalies_detected + 1 }
        now anomaly_score (some pkt) threat_score
    else d
  let d2 := { d1 with buffer := dequeAppend d1.buffer_size d1.buffer result }
  let d3 := log_detection d2 now result.is_anomaly result.anomaly_score none (some pkt)
  (result, d3)

/-- process_packet: count the packet, then score it. A probability is
anomalous when strictly above the threshold; a bare label maps to score
1.0 or 0.0; an exception anywhere in the try block is caught and turned
into a non-anomalous zero-score result carrying the error string (and, as
in the except branch, no packet_data, no buffering, no persistence). The
function is total: it returns a result for every input. -/
def process_packet (d : Detector) (pkt : Observation) (outcome : ScoreOutcome)
    (threat_score now : ℚ) : DetectionResult × Detector :=
  let d0 := { d with total_packets := d.total_packets + 1 }
  match outcome with
  | .fail e =>
      ({ timestamp := now, is_anomaly := false, anomaly_score := 0,
         packet_data := none, error := some e }, d0)
  | .proba p => scoredResult d0 pkt (decide (d0.threshold < p)) p threat_score now
  | .label b => scoredResult d0 pkt b (if b then 1 else 0) threat_score now

/-- One observation fed through process_packet together with its external
collaborators' behavior for that call. -/
structure PacketEvent where
  pkt : Observation
  outcome : ScoreOutcome
  threat_score : ℚ
  now : ℚ
  deriving Repr, DecidableEq

/-- A whole run: fold process_packet over a stream of observations. -/
def runPackets (d : Detector) (evs : List PacketEvent) : Detector :=
  evs.foldl (fun acc e => (process_packet acc e.pkt e.outcome e.threat_score e.now).2) d

/-! ## Synthetic capture fallback (start_packet_capture, scapy branch) -/

/-- Python truthiness of the optional numeric bounds guarding the break
statements: None and 0 are falsy. -/
def truthyBound : Option Nat → Bool
  | none => false
  | some n => n != 0

/-- The pair of break checks run at the tail of each fallback-loop
iteration, after the emitted counter was incremented: break when a truthy
packet_count has been reached, or when a truthy duration has elapsed. -/
def stopCheck (packet_count duration : Option Nat) (emitted : Nat) (elapsed : ℚ) : Bool :=
  (truthyBound packet_count && decide (packet_count.getD 0 ≤ emitted)) ||
  (truthyBound duration && decide ((duration.getD 0 : ℚ) ≤ elapsed))

/-- random.uniform a b as a function of a uniform microstate u in [0,1]. -/
def uniformDraw (a b u : ℚ) : ℚ := a + u * (b - a)

/-- The injected anomaly score: round(random.uniform(max(threshold, 0.9),
1.0), 4). -/
def injectedScore (threshold u : ℚ) : ℚ :=
  pyRound (uniformDraw (max threshold (9/10)) 1 u) 4

/-- The randomness consumed by one iteration of the synthetic fallback
loop, plus the behavior of the external collaborators for that iteration.
The address, port, protocol and length draws are folded into the assembled
packet pkt, since no decision in the loop reads them back. -/
structure Draw where
  scanDraw : ℚ
  injectDraw : ℚ
  scoreDraw : ℚ
  tNow : ℚ
  pkt : Observation
  outcome : ScoreOutcome
  threat_score : ℚ
  deriving Repr, DecidableEq

/-- The 30 percent scan draw: this iteration simulates a port scan when
random.random() is below 0.3. -/
def is_port_scanOf (dr : Draw) : Bool := decide (dr.scanDraw < 3/10)

/-- The anomaly-injection guard as the code writes it: inject_rate is
positive and (the iteration is a port scan, or an independent draw falls
below inject_rate). -/
def forcedAnomalous (inject_rate : ℚ) (dr : Draw) : Bool :=
  decide (0 < inject_rate) && (is_port_scanOf dr || decide (dr.injectDraw < inject_rate))

/-- Modelled from the spec: the injection guard as the specification words
it, an independent draw at rate inject_rate for every observation, scan
and normal alike. Kept separate so it can be compared with the guard the
code implements. -/
def forcedAnomalousSpec (inject_rate : ℚ) (dr : Draw) : Bool :=
  decide (0 < inject_rate) && decide (dr.injectDraw < inject_rate)

/-- One iteration body of the synthetic fallback loop: on the injection
branch, count the packet, draw the forced score, record the anomaly, run
handle_anomaly and append the injected result to the buffer; otherwise run
the packet through process_packet and, in synthetic mode, persist an extra
non-anomalous live-feed record. -/
def syntheticStep (det : Detector) (inject_rate : ℚ) (dr : Draw) : Detector :=
  if forcedAnomalous inject_rate dr then
    let det1 := { det with total_packets := det.total_packets + 1 }
    let score := injectedScore det1.threshold dr.scoreDraw
    let injected : DetectionResult :=
      { timestamp := dr.tNow
        is_anomaly := true
        anomaly_score := score
        packet_data := some dr.pkt
        error := none }
    let det2 := { det1 with anomalies_detected := det1.anomalies_detected + 1 }
    let det3 := handle_anomaly det2 dr.tNow score (some dr.pkt) dr.threat_score
    { det3 with buffer := dequeAppend det3.buffer_size det3.buffer injected }
  else
    let det1 := (process_packet det dr.pkt dr.outcome dr.threat_score dr.tNow).2
    if decide (0 < inject_rate) then
      log_detection det1 dr.tNow false 0 none (some dr.pkt)
    else det1

/-- Outcome of one run of the synthetic while-loop over the modelled
randomness: final detector state, emitted count, and whether a break
statement fired (false means every modelled draw was consumed without any
break, in which case the real loop would keep running). -/
structure LoopResult where
  det : Detector
  emitted : Nat
  stoppedByBound : Bool
  deriving Repr, DecidableEq

/-- The synthetic fallback while-loop: run an iteration, increment
emitted, and break when stopCheck fires; there is no other exit. -/
def syntheticLoop (inject_rate : ℚ) (packet_count duration : Option Nat)
    (start_t : ℚ) : Detector → List Draw → Nat → LoopResult
  | det, [], emitted => ⟨det, emitted, false⟩
  | det, dr :: rest, emitted =>
      let det' := syntheticStep det inject_rate dr
      let emitted' := emitted + 1
      if stopCheck packet_count duration emitted' (dr.tNow - start_t) then
        ⟨det', emitted', true⟩
      else
        syntheticLoop inject_rate packet_count duration start_t det' rest emitted'

/-- How the scapy branch of start_packet_capture ends. -/
inductive CaptureOutcome where
  | sniffed
  | stoppedIdle
  | syntheticDone (stoppedByBound : Bool)
  deriving Repr, DecidableEq

/-- Result of the scapy branch: how it ended, the final detector state,
and how many synthetic observations were emitted. -/
structure CaptureResult where
  outcome : CaptureOutcome
  det : Detector
  emitted : Nat
  deriving Repr, DecidableEq

/-- The scapy branch of start_packet_capture. When sniff succeeds the live
path runs (its per-packet effects happen outside the fallback and are not
the subject of the fallback claims, so the state is returned as-is with
zero synthetic emissions). When sniff raises: with inject_rate equal to 0
the function prints statistics and returns directly, emitting nothing;
otherwise the synthetic fallback loop runs. -/
def scapy_capture (det : Detector) (sniffFails : Bool) (inject_rate : ℚ)
    (packet_count duration : Option Nat) (start_t : ℚ) (draws : List Draw) : CaptureResult :=
  if sniffFails = false then ⟨.sniffed, det, 0⟩
  else if inject_rate = 0 then ⟨.stoppedIdle, det, 0⟩
  else
    let r := syntheticLoop inject_rate packet_count duration start_t det draws 0
    ⟨.syntheticDone r.stoppedByBound, r.det, r.emitted⟩

/-! ## Concrete states used by witnesses and counterexamples -/

/-- An alert manager in its default configuration: alerts enabled,
60-second cooldown, console and log notification channels. -/
def am0 : AlertManager := AlertManager.init true 60 ["console", "log"]

/-- An alert manager whose configuration disables alerts. -/
def amOff : AlertManager := AlertManager.init false 60 ["console", "log"]

/-- A detector in its default configuration: threshold 0.85, buffer size
1000, database enabled, default alert manager. -/
def d0 : Detector := Detector.init (85/100) 1000 true am0

/-- An observation with no extracted fields. -/
def pkt0 : Observation := {}

/-- An alert_data dict with a fixed description. -/
def adX : AlertData := { description := some "x" }

/-! ## Theorems -/

theorem severityRank_le_two (s : String) : severityRank s ≤ 2 := by
  unfold severityRank
  split_ifs <;> omega

/-- C8: the severity assigned by the alert pipeline agrees everywhere with
the spec rule (combined is the 0.6/0.4 blend; high when combined reaches
0.9 or threat reaches 75; medium when combined reaches 0.7 or threat
reaches 50; low otherwise), and in particular anomaly score 0.5 with
threat score 80 gives combined 0.62 and severity high. -/
theorem severity_rule_matches_spec :
    (∀ s t : ℚ, severityOf s t = severitySpecRule s t)
    ∧ combinedScore (1/2) 80 = 62/100
    ∧ severityOf (1/2) 80 = "high" := by
  refine ⟨fun s t => rfl, by norm_num [combinedScore], ?_⟩
  norm_num [severityOf, combinedScore]

/-- C9: severity is monotone, as a rank with low below medium below high,
when the anomaly score or the threat score grows while the other does not
shrink. -/
theorem severity_monotone (s t s' t' : ℚ) (hs : s ≤ s') (ht : t ≤ t') :
    severityRank (severityOf s t) ≤ severityRank (severityOf s' t') := by
  have hc : combinedScore s t ≤ combinedScore s' t' := by
    unfold combinedScore
    linarith
  simp only [severityOf]
  by_cases hA' : 9/10 ≤ combinedScore s' t' ∨ 75 ≤ t'
  · rw [if_pos hA']
    exact le_trans (severityRank_le_two _) (le_of_eq rfl)
  · have hA : ¬ (9/10 ≤ combinedScore s t ∨ 75 ≤ t) := by
      rintro (h | h)
      · exact hA' (Or.inl (le_trans h hc))
      · exact hA' (Or.inr (le_trans h ht))
    rw [if_neg hA', if_neg hA]
    by_cases hB' : 7/10 ≤ combinedScore s' t' ∨ 50 ≤ t'
    · rw [if_pos hB']
      by_cases hB : 7/10 ≤ combinedScore s t ∨ 50 ≤ t
      · rw [if_pos hB]
      · rw [if_neg hB]
        decide
    · have hB : ¬ (7/10 ≤ combinedScore s t ∨ 50 ≤ t) := by
        rintro (h | h)
        · exact hB' (Or.inl (le_trans h hc))
        · exact hB' (Or.inr (le_trans h ht))
      rw [if_neg hB', if_neg hB]

/-- Witness for C9 at a concrete input. -/
theorem severity_monotone_witness :
    severityRank (severityOf 0 0) ≤ severityRank (severityOf 1 0) :=
  severity_monotone 0 0 1 0 (by norm_num) (le_refl 0)

/-- C10: with the alerts.enabled flag false, create_alert returns None for
every input and leaves the whole state unchanged, dispatching nothing. -/
theorem create_alert_disabled_noop (am : AlertManager) (h : am.enabled = false)
    (d : AlertData) (t : ℚ) : create_alert am d t = ⟨none, am, []⟩ := by
  simp [create_alert, h]

/-- Witness for C10 at a concrete disabled manager. -/
theorem create_alert_disabled_noop_witness :
    create_alert amOff adX 5 = ⟨none, amOff, []⟩ :=
  create_alert_disabled_noop amOff rfl adX 5

theorem create_alert_some_facts (am : AlertManager) (d : AlertData) (t : ℚ)
    (h : (create_alert am d t).alert.isSome = true) :
    (create_alert am d t).st.enabled = am.enabled
    ∧ (create_alert am d t).st.alert_cooldown = am.alert_cooldown
    ∧ (create_alert am d t).st.notification_methods = am.notification_methods
    ∧ (create_alert am d t).st.last_alert_time
        = (d.description.getD "unknown", t) :: am.last_alert_time := by
  by_cases he : am.enabled = false
  · simp [create_alert, he] at h
  · by_cases hc : is_in_cooldown am (d.description.getD "unknown") t = true
    · simp [create_alert, he, hc] at h
    · simp [create_alert, he, hc]

/-- C2: after a create_alert call that fired, a second call whose cooldown
key (the description) is identical is suppressed when made strictly less
than the cooldown window after the first: it returns None, changes no
state and dispatches nothing. Made once at least the window has elapsed,
it creates an alert and dispatches it to every configured channel. -/
theorem create_alert_cooldown_behavior (am : AlertManager) (d1 d2 : AlertData) (t1 t2 : ℚ)
    (h1 : (create_alert am d1 t1).alert.isSome = true)
    (hk : d2.description.getD "unknown" = d1.description.getD "unknown") :
    (t2 - t1 < am.alert_cooldown →
        create_alert (create_alert am d1 t1).st d2 t2
          = ⟨none, (create_alert am d1 t1).st, []⟩)
    ∧ (am.alert_cooldown ≤ t2 - t1 →
        (create_alert (create_alert am d1 t1).st d2 t2).alert.isSome = true
        ∧ (create_alert (create_alert am d1 t1).st d2 t2).dispatched
            = am.notification_methods) := by
  obtain ⟨hen, hcd, hnm, hlt⟩ := create_alert_some_facts am d1 t1 h1
  have hetrue : ¬ (am.enabled = false) := by
    intro hfalse
    simp [create_alert, hfalse] at h1
  have hamen : am.enabled = true := by
    cases h : am.enabled
    · exact absurd h hetrue
    · rfl
  generalize hg : (create_alert am d1 t1).st = st at hen hcd hnm hlt ⊢
  have hen' : st.enabled = true := by rw [hen, hamen]
  have hcool : is_in_cooldown st (d2.description.getD "unknown") t2
      = decide (t2 - t1 < am.alert_cooldown) := by
    simp [is_in_cooldown, hlt, hk, hcd, List.lookup]
  constructor
  · intro hin
    have hc2 : is_in_cooldown st (d2.description.getD "unknown") t2 = true := by
      rw [hcool]
      exact decide_eq_true hin
    simp [create_alert, hen', hc2]
  · intro hout
    have hc2 : is_in_cooldown st (d2.description.getD "unknown") t2 = false := by
      rw [hcool]
      simp only [decide_eq_false_iff_not, not_lt]
      exact hout
    simp [create_alert, hen', hc2, hnm]

/-- Witness for C2: with the default manager and a fixed description, a
repeat at 30 seconds is suppressed without side effects and a repeat at 90
seconds fires and dispatches. -/
theorem create_alert_cooldown_behavior_witness :
    (create_alert (create_alert am0 adX 0).st adX 30
        = ⟨none, (create_alert am0 adX 0).st, []⟩)
    ∧ ((create_alert (create_alert am0 adX 0).st adX 90).alert.isSome = true
        ∧ (create_alert (create_alert am0 adX 0).st adX 90).dispatched
            = am0.notification_methods) := by
  have h1 : (create_alert am0 adX 0).alert.isSome = true := by
    simp [create_alert, am0, adX, AlertManager.init, is_in_cooldown]
  constructor
  · exact (create_alert_cooldown_behavior am0 adX adX 0 30 h1 rfl).1
      (by norm_num [am0, AlertManager.init])
  · exact (create_alert_cooldown_behavior am0 adX adX 0 90 h1 rfl).2
      (by norm_num [am0, AlertManager.init])

theorem process_packet_counter_eq (d : Detector) (pkt : Observation) (o : ScoreOutcome)
    (ts now : ℚ) (h : d.alerts_generated = d.anomalies_detected) :
    (process_packet d pkt o ts now).2.alerts_generated
      = (process_packet d pkt o ts now).2.anomalies_detected := by
  cases o with
  | fail e => simpa [process_packet] using h
  | proba p =>
      simp only [process_packet, scoredResult, handle_anomaly, log_detection]
      split_ifs <;> simp [h]
  | label b =>
      simp only [process_packet, scoredResult, handle_anomaly, log_detection]
      split_ifs <;> simp [h]

theorem runPackets_counter_eq (evs : List PacketEvent) (d : Detector)
    (h : d.alerts_generated = d.anomalies_detected) :
    (runPackets d evs).alerts_generated = (runPackets d evs).anomalies_detected := by
  induction evs generalizing d with
  | nil => simpa [runPackets] using h
  | cons e rest ih =>
      simp only [runPackets, List.foldl_cons]
      exact ih _ (process_packet_counter_eq d e.pkt e.outcome e.threat_score e.now h)

/-- C1 counterexample: two identical anomalous observations one second
apart. The second create_alert is suppressed by cooldown (total_alerts
stays at 1), yet alerts_generated still rises to 2: the counter is
incremented irrespective of suppression, refuting the claim that it is
incremented only when an alert is actually created. -/
theorem alerts_counter_incremented_despite_suppression :
    ((process_packet (process_packet d0 pkt0 (.proba (9/10)) 0 0).2
        pkt0 (.proba (9/10)) 0 1).2.am.total_alerts = 1)
    ∧ ((process_packet (process_packet d0 pkt0 (.proba (9/10)) 0 0).2
        pkt0 (.proba (9/10)) 0 1).2.alerts_generated = 2) := by
  norm_num [d0, pkt0, am0, Detector.init, AlertManager.init, process_packet, scoredResult,
    handle_anomaly, log_detection, create_alert, is_in_cooldown, List.lookup]

/-- C1 amended: the alerts counter is bumped once per anomalous result
handled, whatever create_alert returned, so after any run from a fresh
detector alerts_generated equals anomalies_detected (in particular the
claimed bound alerts_generated at most anomalies_detected holds, as an
equality). -/
theorem alerts_generated_eq_anomalies_detected (threshold : ℚ) (bs : Nat) (db : Bool)
    (am : AlertManager) (evs : List PacketEvent) :
    (runPackets (Detector.init threshold bs db am) evs).alerts_generated
      = (runPackets (Detector.init threshold bs db am) evs).anomalies_detected :=
  runPackets_counter_eq evs _ rfl

/-- C5: process_packet is total and well-bounded. Whenever the model
yields a probability in the unit interval the returned score stays in
the unit interval; a bare label yields score 1 or 0, also in the unit
interval; and an exception anywhere in the try block yields exactly the
non-anomalous zero-score result carrying the error. -/
theorem process_packet_total_and_bounded (d : Detector) (pkt : Observation)
    (threat_score now : ℚ) :
    (∀ p : ℚ, 0 ≤ p → p ≤ 1 →
        0 ≤ (process_packet d pkt (.proba p) threat_score now).1.anomaly_score
        ∧ (process_packet d pkt (.proba p) threat_score now).1.anomaly_score ≤ 1)
    ∧ (∀ b : Bool,
        0 ≤ (process_packet d pkt (.label b) threat_score now).1.anomaly_score
        ∧ (process_packet d pkt (.label b) threat_score now).1.anomaly_score ≤ 1)
    ∧ (∀ e : String,
        (process_packet d pkt (.fail e) threat_score now).1
          = { timestamp := now, is_anomaly := false, anomaly_score := 0,
              packet_data := none, error := some e }) := by
  refine ⟨fun p h0 h1 => ?_, fun b => ?_, fun e => ?_⟩
  · simpa [process_packet, scoredResult] using ⟨h0, h1⟩
  · cases b <;> simp [process_packet, scoredResult]
  · simp [process_packet]

/-- Witness for C5: a concrete in-range probability and a concrete
failure. -/
theorem process_packet_total_and_bounded_witness :
    (0 ≤ (process_packet d0 pkt0 (.proba (1/2)) 0 0).1.anomaly_score
      ∧ (process_packet d0 pkt0 (.proba (1/2)) 0 0).1.anomaly_score ≤ 1)
    ∧ (process_packet d0 pkt0 (.fail "boom") 0 0).1
        = { timestamp := 0, is_anomaly := false, anomaly_score := 0,
            packet_data := none, error := some "boom" } :=
  ⟨(process_packet_total_and_bounded d0 pkt0 0 0).1 (1/2) (by norm_num) (by norm_num),
    (process_packet_total_and_bounded d0 pkt0 0 0).2.2 "boom"⟩

/-- C6 counterexample: on a scoring failure the returned error-carrying
result is neither appended to the recent-results buffer nor submitted to
the persistence sink, although the database is enabled; the except branch
returns directly. This refutes the claim for error-carrying results. -/
theorem error_result_skips_buffer_and_persistence :
    d0.db_enabled = true
    ∧ (process_packet d0 pkt0 (.fail "boom") 0 0).1.error = some "boom"
    ∧ (process_packet d0 pkt0 (.fail "boom") 0 0).2.buffer = []
    ∧ (process_packet d0 pkt0 (.fail "boom") 0 0).2.db_log = [] := by
  refine ⟨rfl, ?_, ?_, ?_⟩ <;> simp [process_packet, d0, Detector.init]

theorem handle_anomaly_buffer (d : Detector) (t s : ℚ) (p : Option Observation) (th : ℚ) :
    (handle_anomaly d t s p th).buffer = d.buffer := by
  simp only [handle_anomaly, log_detection]
  split_ifs <;> simp

theorem handle_anomaly_buffer_size (d : Detector) (t s : ℚ) (p : Option Observation) (th : ℚ) :
    (handle_anomaly d t s p th).buffer_size = d.buffer_size := by
  simp only [handle_anomaly, log_detection]
  split_ifs <;> simp

theorem handle_anomaly_db_enabled (d : Detector) (t s : ℚ) (p : Option Observation) (th : ℚ) :
    (handle_anomaly d t s p th).db_enabled = d.db_enabled := by
  simp only [handle_anomaly, log_detection]
  split_ifs <;> simp

theorem getLast?_dequeAppend (cap : Nat) (l : List α) (a : α) (h : 1 ≤ cap) :
    (dequeAppend cap l a).getLast? = some a := by
  simp only [dequeAppend]
  split
  · rw [List.drop_append_of_le_length (by simp; omega)]
    exact List.getLast?_concat _
  · exact List.getLast?_concat _

theorem scoredResult_buffer_log (d : Detector) (pkt : Observation) (pred : Bool)
    (score ts now : ℚ) (hdb : d.db_enabled = true) (hcap : 1 ≤ d.buffer_size) :
    (scoredResult d pkt pred score ts now).2.buffer.getLast?
        = some (scoredResult d pkt pred score ts now).1
    ∧ (scoredResult d pkt pred score ts now).2.db_log.getLast?
        = some (recordOf now pred score none (some pkt)) := by
  have hg : ∀ (l : List DetectionResult) (a : DetectionResult),
      (dequeAppend d.buffer_size l a).getLast? = some a :=
    fun l a => getLast?_dequeAppend _ l a hcap
  cases pred with
  | false =>
      constructor
      · simp [scoredResult, log_detection, hdb, hg]
      · simp [scoredResult, log_detection, hdb, List.getLast?_concat]
  | true =>
      constructor
      · simp [scoredResult, log_detection, handle_anomaly_buffer,
          handle_anomaly_buffer_size, handle_anomaly_db_enabled, hdb, hg]
      · simp [scoredResult, log_detection, handle_anomaly_buffer,
          handle_anomaly_buffer_size, handle_anomaly_db_enabled, hdb, List.getLast?_concat]

/-- C6 amended: every successfully scored DetectionResult, anomalous or
normal, is appended to the bounded recent-results buffer (it becomes the
newest entry) and submitted to the enabled persistence sink before being
returned; error-carrying results from the except branch are returned
directly, bypassing both. -/
theorem scored_result_buffered_and_persisted (d : Detector) (pkt : Observation)
    (o : ScoreOutcome) (ts now : ℚ) (ho : ∀ e, o ≠ .fail e)
    (hdb : d.db_enabled = true) (hcap : 1 ≤ d.buffer_size) :
    (process_packet d pkt o ts now).2.buffer.getLast?
        = some (process_packet d pkt o ts now).1
    ∧ (process_packet d pkt o ts now).2.db_log.getLast?
        = some (recordOf now (process_packet d pkt o ts now).1.is_anomaly
            (process_packet d pkt o ts now).1.anomaly_score none (some pkt)) := by
  cases o with
  | fail e => exact absurd rfl (ho e)
  | proba p =>
      simp only [process_packet]
      exact scoredResult_buffer_log _ pkt _ p ts now (by simpa using hdb) (by simpa using hcap)
  | label b =>
      simp only [process_packet]
      exact scoredResult_buffer_log _ pkt _ _ ts now (by simpa using hdb) (by simpa using hcap)

/-- Witness for C6 amended at a concrete successful scoring. -/
theorem scored_result_buffered_and_persisted_witness :
    (process_packet d0 pkt0 (.proba (1/2)) 0 0).2.buffer.getLast?
        = some (process_packet d0 pkt0 (.proba (1/2)) 0 0).1
    ∧ (process_packet d0 pkt0 (.proba (1/2)) 0 0).2.db_log.getLast?
        = some (recordOf 0 (process_packet d0 pkt0 (.proba (1/2)) 0 0).1.is_anomaly
            (process_packet d0 pkt0 (.proba (1/2)) 0 0).1.anomaly_score none (some pkt0)) :=
  scored_result_buffered_and_persisted d0 pkt0 (.proba (1/2)) 0 0
    (fun _ h => ScoreOutcome.noConfusion h) rfl (by norm_num [d0, Detector.init])

theorem floor_le_roundHalfEven (x : ℚ) : ⌊x⌋ ≤ roundHalfEven x := by
  simp only [roundHalfEven]
  split_ifs <;> omega

theorem le_roundHalfEven (n : ℤ) (x : ℚ) (h : (n : ℚ) ≤ x) : n ≤ roundHalfEven x :=
  le_trans (Int.le_floor.mpr h) (floor_le_roundHalfEven x)

theorem roundHalfEven_le (x : ℚ) (n : ℤ) (h : x ≤ (n : ℚ)) : roundHalfEven x ≤ n := by
  have hfl : ⌊x⌋ ≤ n := by
    have h2 := Int.floor_le_floor h
    simpa using h2
  have hlow : (⌊x⌋ : ℚ) ≤ x := Int.floor_le x
  simp only [roundHalfEven]
  split_ifs with h1 h2 h3
  · exact hfl
  · rcases lt_or_eq_of_le hfl with hlt | heq
    · omega
    · exfalso
      rw [← heq] at h
      have hxle : x ≤ (⌊x⌋ : ℚ) := by exact_mod_cast h
      linarith
  · exact hfl
  · rcases lt_or_eq_of_le hfl with hlt | heq
    · omega
    · exfalso
      rw [← heq] at h
      have hxle : x ≤ (⌊x⌋ : ℚ) := by exact_mod_cast h
      push_neg at h1
      linarith

theorem injectedScore_bounds (threshold u : ℚ) (hth : threshold ≤ 9/10)
    (hu0 : 0 ≤ u) (hu1 : u ≤ 1) :
    max threshold (9/10) ≤ injectedScore threshold u ∧ injectedScore threshold u ≤ 1 := by
  have hmax : max threshold (9/10) = 9/10 := max_eq_right hth
  unfold injectedScore pyRound uniformDraw
  rw [hmax]
  have hlo : (9000 : ℚ) ≤ (9/10 + u * (1 - 9/10)) * 10 ^ 4 := by nlinarith
  have hhi : (9/10 + u * (1 - 9/10)) * 10 ^ 4 ≤ (10000 : ℚ) := by nlinarith
  have h1 : (9000 : ℤ) ≤ roundHalfEven ((9/10 + u * (1 - 9/10)) * 10 ^ 4) :=
    le_roundHalfEven _ _ (by exact_mod_cast hlo)
  have h2 : roundHalfEven ((9/10 + u * (1 - 9/10)) * 10 ^ 4) ≤ (10000 : ℤ) :=
    roundHalfEven_le _ _ (by exact_mod_cast hhi)
  have h1q : (9000 : ℚ) ≤ (roundHalfEven ((9/10 + u * (1 - 9/10)) * 10 ^ 4) : ℚ) := by
    exact_mod_cast h1
  have h2q : (roundHalfEven ((9/10 + u * (1 - 9/10)) * 10 ^ 4) : ℚ) ≤ 10000 := by
    exact_mod_cast h2
  constructor
  · rw [show ((10 : ℚ) ^ 4) = 10000 by norm_num] at h1q ⊢
    linarith
  · rw [show ((10 : ℚ) ^ 4) = 10000 by norm_num] at h2q ⊢
    linarith

/-- A draw whose iteration is a port scan (scan draw 0) but whose
independent injection draw of 0.9 does not fall below an injection rate
of one half. -/
def drScan : Draw :=
  { scanDraw := 0, injectDraw := 9/10, scoreDraw := 0, tNow := 0,
    pkt := {}, outcome := .label false, threat_score := 0 }

/-- A draw for the witness of the amended injection rule. -/
def drW : Draw :=
  { scanDraw := 1, injectDraw := 0, scoreDraw := 0, tNow := 0,
    pkt := {}, outcome := .label false, threat_score := 0 }

/-- C7 counterexample, both failing conjuncts of the claim. First, with
injection rate one half, a port-scan draw whose independent injection
draw is 0.9 (so the independent test fails) is still forced into the
anomalous branch: the code makes every scan observation unconditionally
anomalous once the rate is positive, refuting the claim that the
decision is an independent per-observation draw for scan and normal
traffic alike. Second, the claimed score range fails for a threshold
above 0.9 with more than 4 decimals: at threshold 0.90001 the uniform
microstate 0 draws exactly 0.90001, whose 4-decimal rounding 0.9 falls
strictly below max(threshold, 0.9). -/
theorem port_scan_forced_anomalous_unconditionally :
    (forcedAnomalous (1/2) drScan = true ∧ forcedAnomalousSpec (1/2) drScan = false)
    ∧ injectedScore (90001/100000) 0 < max (90001/100000 : ℚ) (9/10) := by
  refine ⟨⟨?_, ?_⟩, ?_⟩
  · norm_num [forcedAnomalous, is_port_scanOf, drScan]
  · norm_num [forcedAnomalousSpec, drScan]
  · have hle : (9:ℚ)/10 ≤ 90001/100000 := by norm_num
    rw [max_eq_left hle]
    unfold injectedScore pyRound uniformDraw
    rw [max_eq_left hle]
    have hx : (90001:ℚ)/100000 + 0 * (1 - 90001/100000) = 90001/100000 := by ring
    rw [hx]
    have hfl : ⌊(90001:ℚ)/100000 * 10 ^ 4⌋ = 9000 := by
      rw [Int.floor_eq_iff]
      constructor <;> norm_num
    have hf : roundHalfEven ((90001:ℚ)/100000 * 10 ^ 4) = 9000 := by
      simp only [roundHalfEven, hfl]
      norm_num
    rw [hf]
    norm_num

/-- C7 amended: an observation is forced into the anomalous branch
exactly when the rate is positive and either the independent draw at the
injection rate succeeds or the observation is a port-scan draw (scan
observations are unconditionally anomalous); and for a threshold at most
0.9 (the default is 0.85) every forced score, the 4-decimal rounding of a
uniform draw from the interval from max(threshold, 0.9) to 1, lies
between max(threshold, 0.9) and 1. -/
theorem forced_anomaly_decision_and_score_range (inject_rate threshold u : ℚ) (dr : Draw)
    (hth : threshold ≤ 9/10) (hu0 : 0 ≤ u) (hu1 : u ≤ 1) :
    forcedAnomalous inject_rate dr
      = (forcedAnomalousSpec inject_rate dr
          || (decide (0 < inject_rate) && is_port_scanOf dr))
    ∧ max threshold (9/10) ≤ injectedScore threshold u
    ∧ injectedScore threshold u ≤ 1 := by
  refine ⟨?_, (injectedScore_bounds threshold u hth hu0 hu1).1,
    (injectedScore_bounds threshold u hth hu0 hu1).2⟩
  simp only [forcedAnomalous, forcedAnomalousSpec]
  cases h1 : decide (0 < inject_rate) <;> cases h2 : is_port_scanOf dr <;>
    cases h3 : decide (dr.injectDraw < inject_rate) <;> rfl

/-- Witness for C7 amended at a concrete draw, rate and threshold. -/
theorem forced_anomaly_decision_and_score_range_witness :
    (forcedAnomalous 1 drW
        = (forcedAnomalousSpec 1 drW || (decide ((0:ℚ) < 1) && is_port_scanOf drW)))
    ∧ max (85/100 : ℚ) (9/10) ≤ injectedScore (85/100) 0
    ∧ injectedScore (85/100) 0 ≤ 1 :=
  forced_anomaly_decision_and_score_range 1 (85/100) 0 drW (by norm_num) le_rfl zero_le_one

/-- C3: with neither packet_count nor duration set, the synthetic
fallback loop never takes a break: whatever the randomness and however
many iterations run, the stop check is never satisfied, every modelled
draw is consumed, and the emitted count grows without any cap. The
function docstring promises the fallback remains bounded to 10 packets
for safety, but no such cap exists in the loop. -/
theorem synthetic_loop_never_stops_without_bounds (inject_rate start_t : ℚ)
    (det : Detector) (draws : List Draw) (emitted : Nat) :
    (syntheticLoop inject_rate none none start_t det draws emitted).stoppedByBound = false
    ∧ (syntheticLoop inject_rate none none start_t det draws emitted).emitted
        = emitted + draws.length := by
  induction draws generalizing det emitted with
  | nil => simp [syntheticLoop]
  | cons dr rest ih =>
      have hstop : stopCheck none none (emitted + 1) (dr.tNow - start_t) = false := rfl
      simp only [syntheticLoop, hstop, Bool.false_eq_true, if_false, List.length_cons]
      refine ⟨(ih _ _).1, ?_⟩
      rw [(ih _ _).2]
      omega

/-- C4: when the scapy sniff call fails and synthetic injection is
disabled (inject_rate equal to 0), start_packet_capture prints statistics
and returns at once: the session ends stopped and idle, not one synthetic
observation is emitted, and the whole detector state (buffer, counters,
alert manager, persistence log) is untouched. -/
theorem no_synthetic_emission_when_inject_rate_zero (det : Detector) (inject_rate : ℚ)
    (packet_count duration : Option Nat) (start_t : ℚ) (draws : List Draw)
    (h : inject_rate = 0) :
    scapy_capture det true inject_rate packet_count duration start_t draws
      = ⟨.stoppedIdle, det, 0⟩ := by
  subst h
  simp [scapy_capture]

/-- Witness for C4 at a concrete detector and capture configuration. -/
theorem no_synthetic_emission_when_inject_rate_zero_witness :
    scapy_capture d0 true 0 (some 5) none 0 [] = ⟨.stoppedIdle, d0, 0⟩ :=
  no_synthetic_emission_when_inject_rate_zero d0 0 (some 5) none 0 [] rfl

end Intrusion
